import Mathlib

/-!
Verification of the ZEROPAIN repository against its specification.

Each Python module relevant to the checked claims is shallowly embedded:
pure functions become Lean functions over `ℚ`/`ℝ`/`ℤ`/`List`, stateful code
becomes explicit state passing, PRNG draws become explicit arguments
standing for the (deterministic, seeded) stream of values the Python
`random` / `numpy` generators produce, and the SHA-384 hash is an abstract
function argument (the claims only concern which bytes are fed to it and
how the digests are compared, never its internals).
-/

namespace OpioidTools

/-- Python `float` values as used by the compound catalog: a finite rational
or `float('inf')` (used to mark an inactive binding site). -/
inductive PyFloat where
  | num (q : ℚ)
  | inf
  deriving DecidableEq, Repr

/-- Embedding of `CompoundProfile` (src/src/opioid_analysis_tools.py).
Fields keep the dataclass order; the three Ki fields may be infinite. -/
structure CompoundProfile where
  name : String
  ki_orthosteric : PyFloat
  ki_allosteric1 : PyFloat
  ki_allosteric2 : PyFloat
  g_protein_bias : ℚ
  beta_arrestin_bias : ℚ
  t_half : ℚ
  bioavailability : ℚ
  intrinsic_activity : ℚ
  tolerance_rate : ℚ
  prevents_withdrawal : Bool := false
  reverses_tolerance : Bool := false
  receptor_type : String := "MOR"
  pharmacological_activities : List String := []
  mechanism_notes : String := ""
  deriving DecidableEq, Repr

/-- Embedding of `CompoundProfile.calculate_safety_score`: the exact
sequence of additive penalties and bonuses from the source, followed by
`max(0.0, min(100.0, score))`. -/
def CompoundProfile.calculate_safety_score (p : CompoundProfile) : ℚ :=
  let score : ℚ := 100
  let score := if p.intrinsic_activity > 7/10 ∧ p.g_protein_bias < 5 then score - 20 else score
  let score := if p.beta_arrestin_bias > 1/2 then score - 30 else score
  let score :=
    if p.g_protein_bias > 10 then score + 10
    else if p.g_protein_bias > 5 then score + 5
    else score
  let score := if p.tolerance_rate < 1/5 then score + 10 else score
  let score := if p.reverses_tolerance then score + 20 else score
  let score := if p.prevents_withdrawal then score + 10 else score
  let score := if p.bioavailability < 3/10 then score - 10 else score
  let score := if p.t_half < 2 then score - 10 else score
  max 0 (min 100 score)

/-- Reference definition of the safety score written from the
specification's words (spec §4.1): start at 100, −20 if intrinsic
activity > 0.7 and G-protein bias < 5, −30 if β-arrestin bias > 0.5,
+10 if G-protein bias > 10 else +5 if > 5, +10 if tolerance rate < 0.2,
+20 if `reverses_tolerance`, +10 if `prevents_withdrawal`, −10 if
bioavailability < 0.3, −10 if half-life < 2 h, result clamped to
[0, 100]. -/
def specSafetyScore (p : CompoundProfile) : ℚ :=
  let s0 : ℚ := 100
  let s1 := if p.intrinsic_activity > 7/10 ∧ p.g_protein_bias < 5 then s0 - 20 else s0
  let s2 := if p.beta_arrestin_bias > 1/2 then s1 - 30 else s1
  let s3 :=
    if p.g_protein_bias > 10 then s2 + 10
    else if p.g_protein_bias > 5 then s2 + 5
    else s2
  let s4 := if p.tolerance_rate < 1/5 then s3 + 10 else s3
  let s5 := if p.reverses_tolerance then s4 + 20 else s4
  let s6 := if p.prevents_withdrawal then s5 + 10 else s5
  let s7 := if p.bioavailability < 3/10 then s6 - 10 else s6
  let s8 := if p.t_half < 2 then s7 - 10 else s7
  max 0 (min 100 s8)

/-- Insertion into a Python dict modelled as an association list: an
existing key is overwritten in place, a new key is appended (Python dicts
preserve insertion order). -/
def dictInsert (l : List (String × CompoundProfile)) (k : String) (v : CompoundProfile) :
    List (String × CompoundProfile) :=
  if (l.lookup k).isSome then
    l.map (fun p => if p.1 = k then (k, v) else p)
  else
    l ++ [(k, v)]

/-- Embedding of `CompoundDatabase`: the standard catalog and the custom
set, each a name-keyed dict. -/
structure CompoundDatabase where
  compounds : List (String × CompoundProfile)
  custom_compounds : List (String × CompoundProfile)

/-- Embedding of `CompoundDatabase.add_custom_compound`:
`self.custom_compounds[compound.name] = compound`. -/
def CompoundDatabase.add_custom_compound (db : CompoundDatabase) (c : CompoundProfile) :
    CompoundDatabase :=
  { db with custom_compounds := dictInsert db.custom_compounds c.name c }

/-- Embedding of `CompoundDatabase.get_compound`: the standard dict is
consulted first, the custom dict only on a miss. -/
def CompoundDatabase.get_compound (db : CompoundDatabase) (name : String) :
    Option CompoundProfile :=
  match db.compounds.lookup name with
  | some c => some c
  | none => db.custom_compounds.lookup name

/-- The `Morphine` entry of the standard catalog
(`CompoundDatabase._initialize_compounds`), with its literal constants. -/
def morphine : CompoundProfile :=
  { name := "Morphine"
    ki_orthosteric := PyFloat.num (9/5)
    ki_allosteric1 := PyFloat.inf
    ki_allosteric2 := PyFloat.inf
    g_protein_bias := 1
    beta_arrestin_bias := 1
    t_half := 3
    bioavailability := 3/10
    intrinsic_activity := 1
    tolerance_rate := 4/5
    pharmacological_activities :=
      ["MOR full agonist", "DOR weak agonist", "KOR weak agonist"] }

end OpioidTools

namespace ToleranceModels

/-- Embedding of `ToleranceState` (src/src/tolerance_models.py). -/
structure ToleranceState where
  level : ℝ
  ceiling : ℝ

/-- Embedding of `LinearTolerance` model parameters. -/
structure LinearTolerance where
  slope : ℝ := 1/100
  ceiling : ℝ := 3

/-- Embedding of `LinearTolerance.update`:
`state.level = min(state.level + slope*exposure*dt_days, ceiling)` and
`state.ceiling = self.ceiling` (no lower clamp in the source). -/
noncomputable def LinearTolerance.update (m : LinearTolerance) (state : ToleranceState)
    (exposure dt_days : ℝ) : ToleranceState :=
  let increment := m.slope * exposure * dt_days
  { level := min (state.level + increment) m.ceiling, ceiling := m.ceiling }

/-- Embedding of `SigmoidTolerance` parameters; the constructor applies
`half_life_days = max(half_life_days, 1e-3)` (see
`SigmoidTolerance.ofArgs`). -/
structure SigmoidTolerance where
  max_factor : ℝ := 3
  half_life_days : ℝ := 14

/-- The `SigmoidTolerance.__init__` clamp on `half_life_days`. -/
noncomputable def SigmoidTolerance.ofArgs (max_factor half_life_days : ℝ) : SigmoidTolerance :=
  { max_factor := max_factor, half_life_days := max half_life_days (1/1000) }

/-- Embedding of `SigmoidTolerance.update`: first-order approach to the
exposure-dependent target, result clamped by
`max(0.0, min(state.level + delta, max_factor))`. -/
noncomputable def SigmoidTolerance.update (m : SigmoidTolerance) (state : ToleranceState)
    (exposure dt_days : ℝ) : ToleranceState :=
  let k := Real.log 2 / m.half_life_days
  let target := m.max_factor * (1 - Real.exp (-k * exposure))
  let delta := (target - state.level) * (1 - Real.exp (-k * dt_days))
  { level := max 0 (min (state.level + delta) m.max_factor), ceiling := m.max_factor }

/-- Embedding of `LaggedTolerance` parameters; the constructor applies
`max(·, 1e-3)` to both time constants (see `LaggedTolerance.ofArgs`). -/
structure LaggedTolerance where
  rise_tau : ℝ := 7
  decay_tau : ℝ := 10
  ceiling : ℝ := 3

/-- The `LaggedTolerance.__init__` clamps on the time constants. -/
noncomputable def LaggedTolerance.ofArgs (rise_tau decay_tau ceiling : ℝ) : LaggedTolerance :=
  { rise_tau := max rise_tau (1/1000), decay_tau := max decay_tau (1/1000), ceiling := ceiling }

/-- Embedding of `LaggedTolerance.update`: asymmetric rise/decay, result
clamped by `max(0.0, min(state.level + delta, ceiling))`. -/
noncomputable def LaggedTolerance.update (m : LaggedTolerance) (state : ToleranceState)
    (exposure dt_days : ℝ) : ToleranceState :=
  let delta :=
    if exposure > 0 then (m.ceiling - state.level) * (1 - Real.exp (-dt_days / m.rise_tau))
    else -state.level * (1 - Real.exp (-dt_days / m.decay_tau))
  { level := max 0 (min (state.level + delta) m.ceiling), ceiling := m.ceiling }

/-- The three pluggable tolerance update rules, as one sum type so that a
single statement can quantify over them. -/
inductive ToleranceModel where
  | linear (m : LinearTolerance)
  | sigmoid (m : SigmoidTolerance)
  | lagged (m : LaggedTolerance)

/-- Dispatch of `update` over the three models. -/
noncomputable def ToleranceModel.update : ToleranceModel → ToleranceState → ℝ → ℝ → ToleranceState
  | .linear m, s, e, dt => m.update s e dt
  | .sigmoid m, s, e, dt => m.update s e dt
  | .lagged m, s, e, dt => m.update s e dt

/-- The model's ceiling (for `SigmoidTolerance` the ceiling written back
into the state is `max_factor`). -/
def ToleranceModel.modelCeiling : ToleranceModel → ℝ
  | .linear m => m.ceiling
  | .sigmoid m => m.max_factor
  | .lagged m => m.ceiling

/-- Apply a finite sequence of `(exposure, dt_days)` updates in order. -/
noncomputable def runUpdates (model : ToleranceModel) (s : ToleranceState) :
    List (ℝ × ℝ) → ToleranceState
  | [] => s
  | step :: rest => runUpdates model (model.update s step.1 step.2) rest

end ToleranceModels

namespace PatientSim

/-- Python `int()` applied to a real-valued expression: truncation toward
zero. -/
def pyTrunc (q : ℚ) : ℤ := if 0 ≤ q then ⌊q⌋ else ⌈q⌉

/-- Embedding of `AgeDistribution` (src/src/patient_simulation_100k.py). -/
structure AgeDistribution where
  alpha : ℚ := 2
  beta : ℚ := 3
  min_age : ℤ := 18
  max_age : ℤ := 85

/-- Embedding of `AgeDistribution.sample`. The argument `u` stands for the
value returned by `rng.beta(self.alpha, self.beta)`, which for shape
parameters α, β > 0 always lies in [0, 1]; the source computes
`int(min_age + u * (max_age - min_age))`. -/
def AgeDistribution.sample (d : AgeDistribution) (u : ℚ) : ℤ :=
  let age := u * ((d.max_age : ℚ) - (d.min_age : ℚ))
  pyTrunc ((d.min_age : ℚ) + age)

/-- Embedding of `WeightDistribution`. -/
structure WeightDistribution where
  male_mean : ℚ := 82
  male_std : ℚ := 15
  female_mean : ℚ := 70
  female_std : ℚ := 13
  min_weight : ℚ := 45
  max_weight : ℚ := 120

/-- Embedding of `WeightDistribution.sample`. The argument `z` stands for
a standard-normal draw, so `rng.normal(mean, std)` is `mean + std * z`;
`np.clip(w, lo, hi)` is `min (max w lo) hi`. -/
def WeightDistribution.sample (w : WeightDistribution) (z : ℚ) (sex : String) : ℚ :=
  let weight := if sex = "M" then w.male_mean + w.male_std * z
    else w.female_mean + w.female_std * z
  min (max weight w.min_weight) w.max_weight

/-- Embedding of `MedicationProfile`. -/
structure MedicationProfile where
  name : String
  prevalence : ℚ
  metabolism_multiplier : ℚ := 1
  sensitivity_multiplier : ℚ := 1
  analgesia_bonus : ℚ := 0
  side_effect_bias : ℚ := 0
  baseline_tolerance : ℚ := 0

/-- Embedding of `PatientGenerationConfig` (the fields `generate_patient`
reads; dicts become ordered association lists). -/
structure PatientGenerationConfig where
  sex_ratio_male : ℚ := 1/2
  age_distribution : AgeDistribution := {}
  weight_distribution : WeightDistribution := {}
  comorbidity_prevalence : List (String × ℚ) :=
    [("hypertension", 18/100), ("diabetes", 12/100), ("depression", 11/100),
     ("anxiety", 14/100), ("arthritis", 16/100), ("COPD", 8/100),
     ("kidney_disease", 7/100), ("liver_disease", 6/100)]
  pain_alpha : ℚ := 3
  pain_beta : ℚ := 2
  sensitivity_mean : ℚ := 0
  sensitivity_sigma : ℚ := 3/10
  metabolism_sigma : ℚ := 1/4
  pre_existing_medications : List MedicationProfile :=
    [{ name := "SSRI/SNRI", prevalence := 18/100, sensitivity_multiplier := 105/100,
       side_effect_bias := 5/100 },
     { name := "Benzodiazepine", prevalence := 8/100, sensitivity_multiplier := 95/100,
       side_effect_bias := 8/100, baseline_tolerance := 5/100 },
     { name := "Gabapentinoid", prevalence := 15/100, analgesia_bonus := 6/100,
       sensitivity_multiplier := 102/100 },
     { name := "NSAID", prevalence := 25/100, analgesia_bonus := 4/100 },
     { name := "Stimulant", prevalence := 6/100, metabolism_multiplier := 108/100,
       side_effect_bias := 3/100 }]

/-- Embedding of `PatientProfile` (the fields `generate_patient` fills). -/
structure PatientProfile where
  patient_id : ℕ
  age : ℤ
  weight : ℚ
  sex : String
  metabolism_rate : ℚ
  sensitivity : ℚ
  pain_severity : ℚ
  comorbidities : List String
  medications : List String
  baseline_tolerance : ℚ

/-- The pseudo-random values one `generate_patient` call consumes, in
stream order: they stand for the outputs of the per-patient
`np.random.default_rng(seed + patient_id)` generator. `med_uniforms` and
`comorb_uniforms` are the uniform draws used for the medication and
comorbidity Bernoulli trials, in dict order. -/
structure PatientDraws where
  age_beta : ℚ
  sex_uniform : ℚ
  weight_normal : ℚ
  metab_lognormal : ℚ
  sens_lognormal : ℚ
  pain_beta : ℚ
  med_uniforms : ℕ → ℚ
  comorb_uniforms : ℕ → ℚ

/-- Aggregate medication effects accumulated by `generate_patient`. -/
structure MedEffects where
  metabolism_multiplier : ℚ := 1
  sensitivity_multiplier : ℚ := 1
  analgesia_bonus : ℚ := 0
  side_effect_bias : ℚ := 0
  baseline_tolerance : ℚ := 0

/-- The medication loop of `generate_patient`: each profile whose uniform
draw falls below its prevalence is taken, multiplying/accumulating its
effects. -/
def medLoop (profiles : List MedicationProfile) (draws : ℕ → ℚ) :
    List String × MedEffects :=
  (profiles.enum.foldl
    (fun acc p =>
      if draws p.1 < p.2.prevalence then
        (acc.1 ++ [p.2.name],
         { metabolism_multiplier := acc.2.metabolism_multiplier * p.2.metabolism_multiplier
           sensitivity_multiplier := acc.2.sensitivity_multiplier * p.2.sensitivity_multiplier
           analgesia_bonus := acc.2.analgesia_bonus + p.2.analgesia_bonus
           side_effect_bias := acc.2.side_effect_bias + p.2.side_effect_bias
           baseline_tolerance := acc.2.baseline_tolerance + p.2.baseline_tolerance })
      else acc)
    ([], {}))

/-- The comorbidity loop of `generate_patient`: prevalence scaled by the
age factor `1 + max 0 (age - 50) * 0.01`, capped at 1. -/
def comorbLoop (prevalences : List (String × ℚ)) (draws : ℕ → ℚ) (age : ℤ) :
    List String :=
  let age_factor : ℚ := 1 + (max 0 ((age : ℚ) - 50)) * (1/100)
  (prevalences.enum.filterMap
    (fun p => if draws p.1 < min 1 (p.2.2 * age_factor) then some p.2.1 else none))

/-- Embedding of `PatientGenerator.generate_patient`, with the generator's
draws passed explicitly. -/
def generate_patient (patient_id : ℕ) (draws : PatientDraws)
    (cfg : PatientGenerationConfig) : PatientProfile :=
  let age := cfg.age_distribution.sample draws.age_beta
  let sex := if draws.sex_uniform < cfg.sex_ratio_male then "M" else "F"
  let weight := cfg.weight_distribution.sample draws.weight_normal sex
  let base_metabolism := draws.metab_lognormal
  let base_metabolism :=
    if age > 65 then base_metabolism * (8/10)
    else if age < 25 then base_metabolism * (12/10)
    else base_metabolism
  let sensitivity := draws.sens_lognormal
  let pain_severity := draws.pain_beta * 10
  let med := medLoop cfg.pre_existing_medications draws.med_uniforms
  let base_metabolism := base_metabolism * med.2.metabolism_multiplier
  let sensitivity := sensitivity * med.2.sensitivity_multiplier
  let comorbidities := comorbLoop cfg.comorbidity_prevalence draws.comorb_uniforms age
  let base_metabolism :=
    if "liver_disease" ∈ comorbidities then base_metabolism * (6/10) else base_metabolism
  let base_metabolism :=
    if "kidney_disease" ∈ comorbidities then base_metabolism * (7/10) else base_metabolism
  { patient_id := patient_id
    age := age
    weight := weight
    sex := sex
    metabolism_rate := base_metabolism
    sensitivity := sensitivity
    pain_severity := pain_severity
    comorbidities := comorbidities
    medications := med.1
    baseline_tolerance := med.2.baseline_tolerance }

/-- Embedding of `PatientGenerator.generate_population`: one patient per
id `0 .. total-1`, each with its own seeded stream (`draws i` stands for
the stream of `default_rng(seed + i)`). -/
def generate_population (total : ℕ) (draws : ℕ → PatientDraws)
    (cfg : PatientGenerationConfig) : List PatientProfile :=
  (List.range total).map (fun i => generate_patient i (draws i) cfg)

end PatientSim

namespace ExperimentTracking

/-- Parsed content of `signature.sha384` as the tracker writes it (the
fields `verify_signature` reads). -/
structure SignatureFile where
  digest : String
  signed_by : String

/-- The files of one run directory that the signature covers, as raw byte
strings (`none` = the file does not exist), plus the signature file. -/
structure RunFiles where
  metadata : Option (List ℕ)
  config : Option (List ℕ)
  metrics : Option (List ℕ)
  audit : Option (List ℕ)
  signature : Option SignatureFile

/-- The concatenation `_compute_digest` feeds to the hasher: the raw bytes
of `metadata.json`, `config.json`, `metrics.jsonl`, `audit.jsonl`, in that
fixed order, skipping missing files. -/
def concatFiles (fs : RunFiles) : List ℕ :=
  ([fs.metadata, fs.config, fs.metrics, fs.audit].filterMap id).flatten

/-- Embedding of `ExperimentTracker._compute_digest`; `hash` stands for
`hashlib.sha384(...).hexdigest()`, abstracted since the claims only
concern which bytes are hashed and how digests are compared. -/
def compute_digest (hash : List ℕ → String) (fs : RunFiles) : String :=
  hash (concatFiles fs)

/-- Embedding of `ExperimentTracker.verify_signature` (returned pair of
success flag and message). -/
def verify_signature (hash : List ℕ → String) (fs : RunFiles) : Bool × String :=
  match fs.signature with
  | none => (false, "Signature file missing")
  | some stored =>
    if stored.digest = compute_digest hash fs then
      (true, "Signature valid (signed by " ++ stored.signed_by ++ ")")
    else
      (false, "Signature mismatch (signed by " ++ stored.signed_by ++ ")")

/-- Embedding of `ExperimentTracker._refresh_signature`: recompute the
digest over the current files and store it (the signature file itself is
not part of the digest). -/
def refresh_signature (hash : List ℕ → String) (signer : String) (fs : RunFiles) : RunFiles :=
  { fs with signature := some { digest := compute_digest hash fs, signed_by := signer } }

/-- Embedding of `ExperimentTracker.append_audit_event`: append one
serialized event line to `audit.jsonl` (creating it if missing). -/
def append_audit_event (fs : RunFiles) (line : List ℕ) : RunFiles :=
  { fs with audit := some ((fs.audit.getD []) ++ line) }

/-- Embedding of `ExperimentTracker.__init__` on a fresh run directory:
write default metadata, append the `run_created` audit event, refresh the
signature. `metadataBytes` and `auditLine` stand for the serialized JSON
the tracker writes (they depend on timestamps and host identity). -/
def trackerInit (hash : List ℕ → String) (signer : String)
    (metadataBytes auditLine : List ℕ) : RunFiles :=
  let fs : RunFiles :=
    { metadata := some metadataBytes, config := none, metrics := none,
      audit := none, signature := none }
  let fs := append_audit_event fs auditLine
  refresh_signature hash signer fs

/-- Embedding of `ExperimentTracker.log_metrics`: append the payload line
to `metrics.jsonl`, append a `metrics_logged` audit event, refresh the
signature. -/
def log_metrics (hash : List ℕ → String) (signer : String) (fs : RunFiles)
    (payloadLine auditLine : List ℕ) : RunFiles :=
  let fs := { fs with metrics := some ((fs.metrics.getD []) ++ payloadLine) }
  let fs := append_audit_event fs auditLine
  refresh_signature hash signer fs

/-- A byte-level modification of `metadata.json`. -/
def tamperMetadata (fs : RunFiles) (newBytes : List ℕ) : RunFiles :=
  { fs with metadata := some newBytes }

/-- Python `dict.update`, on JSON objects modelled as partial maps from
keys to values: keys of `other` win, all other keys keep their value. -/
def dictUpdate {V : Type} (d other : String → Option V) : String → Option V :=
  fun k => match other k with
  | some v => some v
  | none => d k

/-- Embedding of the merge performed by `ExperimentTracker.upsert_metadata`
when `metadata.json` parses: `base = self._default_metadata();
base.update(current); base.update(extra)`; the merged object is what gets
written back. -/
def upsert_metadata_merge {V : Type} (defaultMeta current extra : String → Option V) :
    String → Option V :=
  dictUpdate (dictUpdate defaultMeta current) extra

end ExperimentTracking

namespace DistRunner

/-- Checkpoint files of one run, keyed by `(stage_name, batch_idx)` (the
on-disk name is `f"{stage_name}-{batch_idx}.json"`); the stored value is
the JSON payload of the batch, which for JSON-representable results with
identity dump/load round-trips to the computed result list. -/
def Store (β : Type) : Type := String × ℕ → Option (List β)

/-- Write one checkpoint file. -/
def Store.write {β : Type} (s : Store β) (key : String × ℕ) (v : List β) : Store β :=
  fun k => if k = key then some v else s k

/-- Embedding of `DistributedRunner._chunk` for a positive batch size
`sz + 1`: `[items[i:i+size] for i in range(0, len(items), size)]`, written
with the size shifted by one so termination is structural. -/
def chunkPos {α : Type} (sz : ℕ) : List α → List (List α)
  | [] => []
  | x :: xs =>
    (x :: xs).take (sz + 1) :: chunkPos sz ((x :: xs).drop (sz + 1))
  termination_by l => l.length
  decreasing_by
    simp only [List.length_drop, List.length_cons]
    omega

/-- Embedding of `DistributedRunner._chunk`: non-positive size returns the
whole list as one batch, a positive size slices consecutive runs of that
size. -/
def chunk {α : Type} (items : List α) (size : ℤ) : List (List α) :=
  if size ≤ 0 then [items] else chunkPos (size.toNat - 1) items

/-- The batch loop of `DistributedRunner.map` (local backend, identity
dump/load), starting at batch index `idx`. Returns the accumulated
results, the final checkpoint store, and the list of items the worker
function was actually invoked on. -/
def mapGo {α β : Type} (resume : Bool) (func : α → β) (stage : String) :
    List (List α) → ℕ → Store β → List β × Store β × List α
  | [], _, store => ([], store, [])
  | b :: rest, idx, store =>
    if resume ∧ (store (stage, idx)).isSome then
      ((store (stage, idx)).getD [] ++
          (mapGo resume func stage rest (idx + 1) store).1,
       (mapGo resume func stage rest (idx + 1) store).2.1,
       (mapGo resume func stage rest (idx + 1) store).2.2)
    else
      (b.map func ++
          (mapGo resume func stage rest (idx + 1)
            (store.write (stage, idx) (b.map func))).1,
       (mapGo resume func stage rest (idx + 1)
         (store.write (stage, idx) (b.map func))).2.1,
       b ++ (mapGo resume func stage rest (idx + 1)
         (store.write (stage, idx) (b.map func))).2.2)

/-- Embedding of `DistributedRunner.map` over the checkpoint store of the
run directory. -/
def runnerMap {α β : Type} (resume : Bool) (func : α → β) (items : List α)
    (stage : String) (batch_size : ℤ) (store : Store β) :
    List β × Store β × List α :=
  mapGo resume func stage (chunk items batch_size) 0 store

/-- The batches a resumed run recomputes, read off the store the run
started from: exactly the batches whose checkpoint file is missing, in
input order. -/
def calledSpec {α β : Type} (stage : String) (store : Store β) :
    List (List α) → ℕ → List α
  | [], _ => []
  | b :: rest, idx =>
    (if (store (stage, idx)).isSome then [] else b) ++ calledSpec stage store rest (idx + 1)

lemma write_lookup_ne {β : Type} (s : Store β) (stage : String) (i j : ℕ)
    (h : j ≠ i) (v : List β) : (s.write (stage, i) v) (stage, j) = s (stage, j) := by
  unfold Store.write
  rw [if_neg]
  intro heq
  exact h (congrArg Prod.snd heq)

lemma write_lookup_eq {β : Type} (s : Store β) (stage : String) (i : ℕ) (v : List β) :
    (s.write (stage, i) v) (stage, i) = some v := by
  unfold Store.write
  rw [if_pos rfl]

lemma mapGo_cons_resume {α β : Type} (resume : Bool) (f : α → β) (stage : String)
    (b : List α) (rest : List (List α)) (idx : ℕ) (store : Store β)
    (hr : resume = true) (h : (store (stage, idx)).isSome = true) :
    mapGo resume f stage (b :: rest) idx store =
      ((store (stage, idx)).getD [] ++
          (mapGo resume f stage rest (idx + 1) store).1,
       (mapGo resume f stage rest (idx + 1) store).2.1,
       (mapGo resume f stage rest (idx + 1) store).2.2) := by
  rw [mapGo, if_pos ⟨hr, h⟩]

lemma mapGo_cons_compute {α β : Type} (resume : Bool) (f : α → β) (stage : String)
    (b : List α) (rest : List (List α)) (idx : ℕ) (store : Store β)
    (h : ¬(resume = true ∧ (store (stage, idx)).isSome = true)) :
    mapGo resume f stage (b :: rest) idx store =
      (b.map f ++
          (mapGo resume f stage rest (idx + 1)
            (store.write (stage, idx) (b.map f))).1,
       (mapGo resume f stage rest (idx + 1)
         (store.write (stage, idx) (b.map f))).2.1,
       b ++ (mapGo resume f stage rest (idx + 1)
         (store.write (stage, idx) (b.map f))).2.2) := by
  rw [mapGo, if_neg h]

lemma mapGo_preserves {α β : Type} (resume : Bool) (f : α → β) (stage : String)
    (batches : List (List α)) :
    ∀ (idx : ℕ) (store : Store β) (j : ℕ), j < idx →
      (mapGo resume f stage batches idx store).2.1 (stage, j) = store (stage, j) := by
  induction batches with
  | nil => intro idx store j _; rfl
  | cons b rest ih =>
    intro idx store j hj
    by_cases hres : (resume = true ∧ (store (stage, idx)).isSome = true)
    · rw [mapGo_cons_resume resume f stage b rest idx store hres.1 hres.2]
      exact ih (idx + 1) store j (Nat.lt_succ_of_lt hj)
    · rw [mapGo_cons_compute resume f stage b rest idx store hres]
      dsimp only
      rw [ih (idx + 1) _ j (Nat.lt_succ_of_lt hj)]
      exact write_lookup_ne store stage idx j (Nat.ne_of_lt hj) _

lemma mapGo_agree {α β : Type} (f : α → β) (stage : String) (batches : List (List α)) :
    ∀ (idx : ℕ) (s1 s2 : Store β), (∀ j, idx ≤ j → s1 (stage, j) = s2 (stage, j)) →
      (mapGo true f stage batches idx s1).1 = (mapGo true f stage batches idx s2).1 ∧
        (mapGo true f stage batches idx s1).2.2 = (mapGo true f stage batches idx s2).2.2 := by
  induction batches with
  | nil => intro idx s1 s2 _; exact ⟨rfl, rfl⟩
  | cons b rest ih =>
    intro idx s1 s2 hag
    have hidx : s1 (stage, idx) = s2 (stage, idx) := hag idx (le_refl idx)
    by_cases hres : (s2 (stage, idx)).isSome = true
    · rw [mapGo_cons_resume true f stage b rest idx s1 rfl (by rw [hidx]; exact hres),
        mapGo_cons_resume true f stage b rest idx s2 rfl hres]
      dsimp only
      have := ih (idx + 1) s1 s2 (fun j hj => hag j (Nat.le_of_succ_le hj))
      exact ⟨by rw [hidx, this.1], this.2⟩
    · rw [mapGo_cons_compute true f stage b rest idx s1
          (by intro hc; rw [hidx] at hc; exact hres hc.2),
        mapGo_cons_compute true f stage b rest idx s2 (by intro hc; exact hres hc.2)]
      dsimp only
      have hag' : ∀ j, idx + 1 ≤ j →
          (s1.write (stage, idx) (b.map f)) (stage, j) =
            (s2.write (stage, idx) (b.map f)) (stage, j) := by
        intro j hj
        rw [write_lookup_ne s1 stage idx j (by omega) _,
          write_lookup_ne s2 stage idx j (by omega) _]
        exact hag j (Nat.le_of_succ_le hj)
      have := ih (idx + 1) _ _ hag'
      exact ⟨by rw [this.1], by rw [this.2]⟩

lemma mapGo_rerun {α β : Type} (f : α → β) (stage : String) (batches : List (List α)) :
    ∀ (idx : ℕ) (store : Store β),
      (mapGo true f stage batches idx
          ((mapGo true f stage batches idx store).2.1)).1 =
        (mapGo true f stage batches idx store).1 ∧
      (mapGo true f stage batches idx
          ((mapGo true f stage batches idx store).2.1)).2.1 =
        (mapGo true f stage batches idx store).2.1 ∧
      (mapGo true f stage batches idx
          ((mapGo true f stage batches idx store).2.1)).2.2 = [] := by
  induction batches with
  | nil => intro idx store; exact ⟨rfl, rfl, rfl⟩
  | cons b rest ih =>
    intro idx store
    by_cases hres : (store (stage, idx)).isSome = true
    · -- the first run restored this batch from an existing checkpoint
      rw [mapGo_cons_resume true f stage b rest idx store rfl hres]
      dsimp only
      have hkeep := mapGo_preserves true f stage rest (idx + 1) store idx
        (Nat.lt_succ_self idx)
      rw [mapGo_cons_resume true f stage b rest idx _ rfl (by rw [hkeep]; exact hres)]
      dsimp only
      have := ih (idx + 1) store
      exact ⟨by rw [hkeep, this.1], this.2.1, this.2.2⟩
    · -- the first run computed and wrote this batch
      rw [mapGo_cons_compute true f stage b rest idx store (by intro h; exact hres h.2)]
      dsimp only
      have hkeep := mapGo_preserves true f stage rest (idx + 1)
        (store.write (stage, idx) (b.map f)) idx (Nat.lt_succ_self idx)
      rw [write_lookup_eq] at hkeep
      rw [mapGo_cons_resume true f stage b rest idx _ rfl (by rw [hkeep]; rfl)]
      dsimp only
      have := ih (idx + 1) (store.write (stage, idx) (b.map f))
      refine ⟨?_, this.2.1, this.2.2⟩
      rw [hkeep, Option.getD_some, this.1]

lemma mapGo_called {α β : Type} (f : α → β) (stage : String) (batches : List (List α)) :
    ∀ (idx : ℕ) (store : Store β),
      (mapGo true f stage batches idx store).2.2 = calledSpec stage store batches idx := by
  induction batches with
  | nil => intro idx store; rfl
  | cons b rest ih =>
    intro idx store
    by_cases hres : (store (stage, idx)).isSome = true
    · rw [mapGo_cons_resume true f stage b rest idx store rfl hres, calledSpec,
        if_pos hres, List.nil_append]
      exact ih (idx + 1) store
    · rw [mapGo_cons_compute true f stage b rest idx store (by intro h; exact hres h.2),
        calledSpec, if_neg hres]
      dsimp only
      have hag : ∀ j, idx + 1 ≤ j →
          (store.write (stage, idx) (b.map f)) (stage, j) = store (stage, j) :=
        fun j hj => write_lookup_ne store stage idx j (by omega) _
      rw [(mapGo_agree f stage rest (idx + 1) _ store hag).2, ih (idx + 1) store]

lemma chunkPos_flatten {α : Type} (sz : ℕ) :
    ∀ (n : ℕ) (l : List α), l.length ≤ n → (chunkPos sz l).flatten = l := by
  intro n
  induction n with
  | zero =>
    intro l h
    have : l = [] := List.length_eq_zero.mp (Nat.le_zero.mp h)
    subst this
    rw [chunkPos]
    rfl
  | succ n ih =>
    intro l h
    cases l with
    | nil => rw [chunkPos]; rfl
    | cons x xs =>
      have hlen : xs.length ≤ n := by
        simp only [List.length_cons] at h
        omega
      rw [chunkPos, List.flatten_cons]
      rw [ih ((x :: xs).drop (sz + 1))
        (by simp only [List.length_drop, List.length_cons]; omega)]
      exact List.take_append_drop _ _

lemma chunk_flatten {α : Type} (items : List α) (size : ℤ) :
    (chunk items size).flatten = items := by
  unfold chunk
  split
  · simp
  · exact chunkPos_flatten _ items.length items (le_refl _)

lemma mapGo_fresh {α β : Type} (f : α → β) (stage : String) (batches : List (List α)) :
    ∀ (idx : ℕ) (store : Store β), (∀ j, idx ≤ j → store (stage, j) = none) →
      (mapGo true f stage batches idx store).1 = batches.flatten.map f ∧
      ∀ j, (mapGo true f stage batches idx store).2.1 (stage, j) =
        if idx ≤ j then (batches[j - idx]?).map (List.map f) else store (stage, j) := by
  induction batches with
  | nil =>
    intro idx store hfresh
    refine ⟨rfl, fun j => ?_⟩
    show store (stage, j) = _
    rw [List.getElem?_nil]
    split
    · rename_i hle
      exact (hfresh j hle).trans rfl
    · rfl
  | cons b rest ih =>
    intro idx store hfresh
    have hnone : store (stage, idx) = none := hfresh idx (le_refl idx)
    rw [mapGo_cons_compute true f stage b rest idx store
      (by intro h; rw [hnone] at h; exact Bool.false_ne_true h.2)]
    dsimp only
    have hfresh' : ∀ j, idx + 1 ≤ j →
        (store.write (stage, idx) (b.map f)) (stage, j) = none := by
      intro j hj
      rw [write_lookup_ne store stage idx j (by omega) _]
      exact hfresh j (Nat.le_of_succ_le hj)
    have hrest := ih (idx + 1) (store.write (stage, idx) (b.map f)) hfresh'
    constructor
    · rw [hrest.1]
      simp
    · intro j
      rw [hrest.2 j]
      rcases Nat.lt_trichotomy j idx with hlt | heq | hgt
      · rw [if_neg (by omega), if_neg (by omega)]
        exact write_lookup_ne store stage idx j (by omega) _
      · subst heq
        rw [if_neg (by omega), if_pos (le_refl j), Nat.sub_self,
          write_lookup_eq, List.getElem?_cons_zero]
        rfl
      · rw [if_pos (by omega), if_pos (by omega)]
        have harith : j - idx = (j - (idx + 1)) + 1 := by omega
        rw [harith, List.getElem?_cons_succ]

end DistRunner

namespace ApiAuth

/-- The claims a JWT carries that the auth module reads (`sub`, `role`,
`type`; the expiry is abstracted into decodability). -/
structure TokenPayload where
  sub : Option String
  role : Option String
  typ : String
  deriving DecidableEq, Repr

/-- A presented token: either it decodes under the signing key to a
payload (`jwt.decode` succeeds) or decoding raises `JWTError`. -/
inductive JwtToken where
  | valid (payload : TokenPayload)
  | invalid
  deriving DecidableEq, Repr

/-- `jwt.decode(token, SECRET_KEY, ...)` as a partial function. -/
def decode : JwtToken → Option TokenPayload
  | .valid p => some p
  | .invalid => none

/-- Result of a successful `verify_token`: the `TokenData` model. -/
structure TokenData where
  username : String
  role : Option String
  deriving DecidableEq, Repr

/-- The Redis session store: key `"refresh_token:" ++ username` maps to the
stored refresh token. -/
def RedisState : Type := String → Option JwtToken

/-- Embedding of `verify_token` (src/zeropain/api/auth.py): decode, check
the `type` discriminator, require a subject. It never consults the Redis
store. -/
def verify_token (token : JwtToken) (token_type : String) : Option TokenData :=
  match decode token with
  | none => none
  | some payload =>
    if payload.typ ≠ token_type then none
    else
      match payload.sub with
      | none => none
      | some username => some { username := username, role := payload.role }

/-- Embedding of `revoke_token`: decode the token and delete the
`refresh_token:{username}` key from Redis (no blacklist entry is added). -/
def revoke_token (redis : RedisState) (token : JwtToken) : RedisState :=
  match decode token with
  | none => redis
  | some payload =>
    match payload.sub with
    | none => redis
    | some username =>
      fun k => if k = "refresh_token:" ++ username then none else redis k

/-- Embedding of `create_access_token` for the data
`{"sub": username, "role": role}`. -/
def create_access_token (username role : String) : JwtToken :=
  .valid { sub := some username, role := some role, typ := "access" }

/-- Embedding of `create_refresh_token`: build the refresh token and store
it in Redis under `refresh_token:{sub}`. -/
def create_refresh_token (redis : RedisState) (username role : String) :
    JwtToken × RedisState :=
  let token : JwtToken := .valid { sub := some username, role := some role, typ := "refresh" }
  (token, fun k => if k = "refresh_token:" ++ username then some token else redis k)

/-- Embedding of the `User` record fields the refresh flow reads. -/
structure User where
  username : String
  role : String
  disabled : Bool
  deriving DecidableEq, Repr

/-- The token pair `create_user_tokens` returns. -/
structure TokenPair where
  access_token : JwtToken
  refresh_token : JwtToken
  deriving DecidableEq, Repr

/-- Embedding of `create_user_tokens`, threading the Redis store through
`create_refresh_token`. -/
def create_user_tokens (redis : RedisState) (user : User) : TokenPair × RedisState :=
  let access := create_access_token user.username user.role
  let r := create_refresh_token redis user.username user.role
  ({ access_token := access, refresh_token := r.1 }, r.2)

/-- Outcome of a route: a token pair or an HTTP error status + detail. -/
inductive RouteOutcome where
  | ok (tokens : TokenPair) (redis : RedisState)
  | httpError (statusCode : ℕ) (detail : String)

/-- Whether the route succeeded. -/
def RouteOutcome.isOk : RouteOutcome → Bool
  | .ok _ _ => true
  | .httpError _ _ => false

/-- Embedding of `POST /api/auth/refresh`
(src/zeropain/api/routes/auth.py, `refresh_token`): verify the presented
token as a refresh token, look the user up, reject missing/disabled users,
then issue a fresh pair. The Redis store is passed in because issuing new
tokens writes to it — note that no step of this handler reads it. -/
def refresh_route (users : List (String × User)) (redis : RedisState)
    (presented : JwtToken) : RouteOutcome :=
  match verify_token presented "refresh" with
  | none => .httpError 401 "Invalid refresh token"
  | some token_data =>
    match users.lookup token_data.username with
    | none => .httpError 401 "User not found or disabled"
    | some user =>
      if user.disabled then .httpError 401 "User not found or disabled"
      else
        let r := create_user_tokens redis user
        .ok r.1 r.2

/-- Embedding of `POST /api/auth/logout`: revoke the presented refresh
token (the caller's authentication is elided). -/
def logout_route (redis : RedisState) (presented : JwtToken) : RedisState :=
  revoke_token redis presented

end ApiAuth

namespace Docking

/-- Embedding of `DockingJobSpec` (the fields the validation and the two
reference backends read; `backend`/`hardware` are optional strings, where
the Python code treats `None` and `""` alike as unset). -/
structure DockingJobSpec where
  receptor : String
  ligands : List String
  backend : Option String := none
  hardware : Option String := none
  poses_per_ligand : ℕ := 5
  max_ligands : ℕ := 500
  job_id : String := ""

/-- Embedding of `DockingPose`. -/
structure DockingPose where
  ligand_id : String
  pose_id : ℕ
  score : ℚ
  backend : String
  device : String
  rank : ℕ
  deriving DecidableEq, Repr

/-- Outcome of `validate_inputs`: normal return or a raised
`ValidationError` with its message. -/
inductive Validation where
  | ok
  | error (msg : String)
  deriving DecidableEq, Repr

/-- Embedding of `validate_inputs` (src/zeropain/docking/io.py). -/
def validate_inputs (job : DockingJobSpec) : Validation :=
  if job.ligands = [] then .error "No ligands provided"
  else if job.ligands.length > job.max_ligands then .error "Too many ligands"
  else if job.receptor = "" then .error "Receptor not specified"
  else .ok

/-- Embedding of `backends/mocked.py run`: a fresh `random.Random(1234)`
per call; `stream n` stands for the n-th value of that seeded generator's
`random()` sequence, consumed in loop order, so the n-th draw goes to the
pose with flat index `n = lig_idx * poses_per_ligand + pose_id`, which is
also the pose's `rank`. -/
def mocked_run (stream : ℕ → ℚ) (job : DockingJobSpec) (device : String) :
    List DockingPose :=
  (job.ligands.take job.max_ligands).enum.flatMap
    (fun lig =>
      (List.range job.poses_per_ligand).map
        (fun pose_id =>
          let flat := lig.1 * job.poses_per_ligand + pose_id
          { ligand_id := lig.2
            pose_id := pose_id
            score := -5 - (1/100) * (pose_id : ℚ) + (1/10) * stream flat
            backend := "mocked"
            device := device
            rank := flat }))

/-- Embedding of `backends/python_ref.py run`: a fresh `random.Random(42)`
per call, same loop structure as the mocked backend, score
`-7.0 + rng.random()`. -/
def python_ref_run (stream : ℕ → ℚ) (job : DockingJobSpec) (device : String) :
    List DockingPose :=
  (job.ligands.take job.max_ligands).enum.flatMap
    (fun lig =>
      (List.range job.poses_per_ligand).map
        (fun pose_id =>
          let flat := lig.1 * job.poses_per_ligand + pose_id
          { ligand_id := lig.2
            pose_id := pose_id
            score := -7 + stream flat
            backend := "python_ref"
            device := device
            rank := flat }))

/-- Embedding of `DockingHardwareProfile` (the field `select_backend`
reads in its heuristic fallback). -/
structure DockingHardwareProfile where
  arc_gpu : Bool := false

/-- Embedding of `detect_hardware_profile` in this source tree: the DSMIL
router import always fails and every capability flag is hard-coded off. -/
def detect_hardware_profile : DockingHardwareProfile := { arc_gpu := false }

/-- Python truthiness of `Optional[str]`: `None` and `""` are falsy. -/
def optStrTruthy (o : Option String) : Bool := o.getD "" ≠ ""

/-- Embedding of `select_backend` with the router unavailable (as in this
source tree): the user override wins — device `CPU` for the mocked
backend, otherwise `hardware or "AUTO"`; the fallback routes to
`python_ref` on CPU unless an Arc GPU was detected. -/
def select_backend (job : DockingJobSpec) (profile : DockingHardwareProfile) :
    String × String :=
  if optStrTruthy job.backend then
    let b := job.backend.getD ""
    (b, if b ≠ "mocked" then (if optStrTruthy job.hardware then job.hardware.getD "" else "AUTO")
        else "CPU")
  else if profile.arc_gpu then ("c_native", "GPU")
  else ("python_ref", "CPU")

/-- Embedding of `DockingResult` (the fields the claims mention; artifact
paths are the strings the pipeline records for the run directory). -/
structure DockingResult where
  job_id : String
  status : String
  backend : String
  device : String
  poses : List DockingPose
  artifacts : List (String × String)

/-- Embedding of `run_docking_job` (src/zeropain/docking/pipeline.py),
with the per-backend seeded random streams passed explicitly
(`streams b n` = n-th `random()` draw of backend `b`'s fixed-seed
generator) and the filesystem writes reflected in the artifacts map.
`BACKEND_IMPL.get(backend, python_ref.run)` falls back to `python_ref`
for any unknown backend name. -/
def run_docking_job (streams : String → ℕ → ℚ) (run_dir : String)
    (job : DockingJobSpec) : Except String DockingResult :=
  match validate_inputs job with
  | .error msg => .error msg
  | .ok =>
    let sel := select_backend job detect_hardware_profile
    let backend := sel.1
    let device := sel.2
    let poses :=
      if backend = "mocked" then mocked_run (streams "mocked") job device
      else python_ref_run (streams "python_ref") job device
    let base := run_dir ++ "/" ++ job.job_id ++ "/docking"
    .ok { job_id := job.job_id
          status := "success"
          backend := backend
          device := device
          poses := poses
          artifacts :=
            [("scores_csv", base ++ "/scores.csv"),
             ("telemetry", base ++ "/telemetry.json"),
             ("inputs_manifest", base ++ "/inputs/manifest.json")] }

end Docking

/-- C3: for every `CompoundProfile`, `calculate_safety_score()` equals the
reference definition written from the spec (start at 100, −20 if
intrinsic activity > 0.7 and G-protein bias < 5, −30 if β-arrestin
bias > 0.5, +10 if G-protein bias > 10 else +5 if > 5, +10 if tolerance
rate < 0.2, +20 if `reverses_tolerance`, +10 if `prevents_withdrawal`,
−10 if bioavailability < 0.3, −10 if half-life < 2), and the result lies
in [0, 100]; this holds for all field values, in particular for fields in
their documented ranges. -/
theorem safety_score_matches_spec_and_bounded (p : OpioidTools.CompoundProfile) :
    p.calculate_safety_score = OpioidTools.specSafetyScore p ∧
      0 ≤ p.calculate_safety_score ∧ p.calculate_safety_score ≤ 100 := by
  refine ⟨rfl, ?_, ?_⟩
  · exact le_max_left 0 _
  · exact max_le (by norm_num) (min_le_left _ _)

/-- C8: whenever a name resolves in the standard catalog, adding any
custom compound (in particular one with the same colliding name) leaves
`get_compound(name)` returning the standard entry, because the standard
dict is consulted before the custom one. -/
theorem get_compound_prefers_standard (db : OpioidTools.CompoundDatabase)
    (name : String) (c custom : OpioidTools.CompoundProfile)
    (h : db.compounds.lookup name = some c) :
    (db.add_custom_compound custom).get_compound name = some c := by
  simp [OpioidTools.CompoundDatabase.get_compound,
    OpioidTools.CompoundDatabase.add_custom_compound, h]

/-- Concrete witness for C8: a database holding the catalog's `Morphine`
entry, shadowed by a custom compound of the same name. -/
theorem get_compound_prefers_standard_witness :
    ([("Morphine", OpioidTools.morphine)].lookup "Morphine" = some OpioidTools.morphine) ∧
      ((OpioidTools.CompoundDatabase.mk [("Morphine", OpioidTools.morphine)]
          []).add_custom_compound
            { OpioidTools.morphine with tolerance_rate := 0 }).get_compound "Morphine" =
        some OpioidTools.morphine := by
  refine ⟨rfl, ?_⟩
  exact get_compound_prefers_standard _ "Morphine" _ _ rfl

namespace ToleranceModels

/-- The one fact about the linear model's parameters that the boundedness
invariant needs: a non-negative slope (the sigmoid and lagged updates
clamp on both sides and need nothing). -/
def ToleranceModel.slopeNonneg : ToleranceModel → Prop
  | .linear m => 0 ≤ m.slope
  | .sigmoid _ => True
  | .lagged _ => True

/-- One update keeps the level inside `[0, ceiling]`. -/
lemma update_level_mem (model : ToleranceModel) (hm : model.slopeNonneg)
    (s : ToleranceState) (h0 : 0 ≤ s.level) (h1 : s.level ≤ model.modelCeiling)
    (e dt : ℝ) (he : 0 ≤ e) (hdt : 0 ≤ dt) :
    0 ≤ (model.update s e dt).level ∧
      (model.update s e dt).level ≤ model.modelCeiling := by
  cases model with
  | linear m =>
    simp only [ToleranceModel.update, ToleranceModel.modelCeiling,
      LinearTolerance.update] at *
    have hinc : 0 ≤ m.slope * e * dt := mul_nonneg (mul_nonneg hm he) hdt
    exact ⟨le_min (by linarith) (h0.trans h1), min_le_right _ _⟩
  | sigmoid m =>
    simp only [ToleranceModel.update, ToleranceModel.modelCeiling,
      SigmoidTolerance.update] at *
    exact ⟨le_max_left 0 _, max_le (h0.trans h1) (min_le_right _ _)⟩
  | lagged m =>
    simp only [ToleranceModel.update, ToleranceModel.modelCeiling,
      LaggedTolerance.update] at *
    exact ⟨le_max_left 0 _, max_le (h0.trans h1) (min_le_right _ _)⟩

/-- Any finite update sequence keeps the level inside `[0, ceiling]`. -/
lemma runUpdates_level_mem (model : ToleranceModel) (hm : model.slopeNonneg)
    (steps : List (ℝ × ℝ)) (hsteps : ∀ p ∈ steps, 0 ≤ p.1 ∧ 0 ≤ p.2)
    (s : ToleranceState) (h0 : 0 ≤ s.level) (h1 : s.level ≤ model.modelCeiling) :
    0 ≤ (runUpdates model s steps).level ∧
      (runUpdates model s steps).level ≤ model.modelCeiling := by
  induction steps generalizing s with
  | nil => exact ⟨h0, h1⟩
  | cons step rest ih =>
    have hstep := hsteps step (List.mem_cons_self _ _)
    have hnext := update_level_mem model hm s h0 h1 step.1 step.2 hstep.1 hstep.2
    exact ih (fun p hp => hsteps p (List.mem_cons_of_mem _ hp)) _ hnext.1 hnext.2

end ToleranceModels

/-- C6 (counterexample): the claim as stated fails on the code. With a
linear model of slope −1 and ceiling 3 — parameters the constructor
accepts — a state whose level 0 lies in [0, 3], exposure 1 ≥ 0 and
elapsed days 1 ≥ 0 produce level −1 < 0: `LinearTolerance.update` has no
lower clamp. -/
theorem linear_tolerance_update_escapes_below_zero :
    (0:ℝ) ≤ 0 ∧ (0:ℝ) ≤ 3 ∧ (0:ℝ) ≤ 1 ∧
      ((ToleranceModels.LinearTolerance.mk (-1) 3).update
          (ToleranceModels.ToleranceState.mk 0 3) 1 1).level < 0 := by
  refine ⟨le_refl 0, by norm_num, by norm_num, ?_⟩
  show min ((0:ℝ) + (-1) * 1 * 1) 3 < 0
  rw [min_eq_left (by norm_num)]
  norm_num

/-- C6 (amended): for each of the three tolerance update rules — the
linear one restricted to a non-negative slope, which is the most the
counterexample forces — starting from any state whose level lies in
[0, ceiling], any finite sequence of updates with non-negative exposures
and non-negative elapsed-day increments keeps the level inside
[0, ceiling]. -/
theorem tolerance_level_stays_in_range (model : ToleranceModels.ToleranceModel)
    (hm : model.slopeNonneg) (s : ToleranceModels.ToleranceState)
    (h0 : 0 ≤ s.level) (h1 : s.level ≤ model.modelCeiling)
    (steps : List (ℝ × ℝ)) (hsteps : ∀ p ∈ steps, 0 ≤ p.1 ∧ 0 ≤ p.2) :
    0 ≤ (ToleranceModels.runUpdates model s steps).level ∧
      (ToleranceModels.runUpdates model s steps).level ≤ model.modelCeiling :=
  ToleranceModels.runUpdates_level_mem model hm steps hsteps s h0 h1

/-- Concrete witness for C6: the default linear model (slope 0.01,
ceiling 3), starting level 0, two update steps. -/
theorem tolerance_level_stays_in_range_witness :
    0 ≤ (ToleranceModels.runUpdates
          (ToleranceModels.ToleranceModel.linear { slope := 1/100, ceiling := 3 })
          (ToleranceModels.ToleranceState.mk 0 3) [(1, 1), (2, 1/2)]).level ∧
      (ToleranceModels.runUpdates
          (ToleranceModels.ToleranceModel.linear { slope := 1/100, ceiling := 3 })
          (ToleranceModels.ToleranceState.mk 0 3) [(1, 1), (2, 1/2)]).level ≤
        (ToleranceModels.ToleranceModel.linear
          { slope := 1/100, ceiling := 3 }).modelCeiling := by
  refine tolerance_level_stays_in_range _ ?_ _ ?_ ?_ _ ?_
  · show (0:ℝ) ≤ 1/100
    norm_num
  · exact le_refl 0
  · show (0:ℝ) ≤ 3
    norm_num
  · intro p hp
    simp only [List.mem_cons, List.not_mem_nil, or_false] at hp
    rcases hp with h | h <;> rw [h] <;> constructor <;> norm_num

namespace PatientSim

/-- Truncation toward zero stays inside any integer interval containing
its argument. -/
lemma pyTrunc_mem (lo hi : ℤ) (q : ℚ) (hlo : (lo : ℚ) ≤ q) (hhi : q ≤ (hi : ℚ)) :
    lo ≤ pyTrunc q ∧ pyTrunc q ≤ hi := by
  unfold pyTrunc
  split
  · refine ⟨Int.le_floor.mpr hlo, ?_⟩
    have h := Int.floor_le_floor hhi
    rwa [Int.floor_intCast] at h
  · refine ⟨?_, Int.ceil_le.mpr hhi⟩
    have h := Int.ceil_le_ceil hlo
    rwa [Int.ceil_intCast] at h

/-- `AgeDistribution.sample` lands in `[min_age, max_age]` whenever the
beta draw lies in [0, 1] and the bounds are ordered. -/
lemma sample_age_mem (d : AgeDistribution) (hmm : d.min_age ≤ d.max_age)
    (u : ℚ) (hu0 : 0 ≤ u) (hu1 : u ≤ 1) :
    d.min_age ≤ d.sample u ∧ d.sample u ≤ d.max_age := by
  unfold AgeDistribution.sample
  have hspan : (0 : ℚ) ≤ (d.max_age : ℚ) - (d.min_age : ℚ) := by
    have : (d.min_age : ℚ) ≤ (d.max_age : ℚ) := by exact_mod_cast hmm
    linarith
  refine pyTrunc_mem _ _ _ ?_ ?_
  · nlinarith
  · nlinarith

end PatientSim

/-- C4: for any generation config with age shape parameters α, β > 0 and
ordered bounds, every patient produced by `generate_patient` — and hence
every member of any `generate_population` output, for any population size
and any per-patient draw streams — has an age in the inclusive range
`[min_age, max_age]`. The range hypotheses on the beta draws record the
fact that `rng.beta(α, β)` with α, β > 0 always returns a value in
[0, 1]. -/
theorem patient_age_in_configured_range (cfg : PatientSim.PatientGenerationConfig)
    (halpha : 0 < cfg.age_distribution.alpha) (hbeta : 0 < cfg.age_distribution.beta)
    (hmm : cfg.age_distribution.min_age ≤ cfg.age_distribution.max_age) :
    (∀ (pid : ℕ) (draws : PatientSim.PatientDraws),
        0 ≤ draws.age_beta → draws.age_beta ≤ 1 →
        cfg.age_distribution.min_age ≤ (PatientSim.generate_patient pid draws cfg).age ∧
          (PatientSim.generate_patient pid draws cfg).age ≤ cfg.age_distribution.max_age) ∧
    (∀ (total : ℕ) (dseq : ℕ → PatientSim.PatientDraws),
        (∀ i, 0 ≤ (dseq i).age_beta ∧ (dseq i).age_beta ≤ 1) →
        ∀ p ∈ PatientSim.generate_population total dseq cfg,
          cfg.age_distribution.min_age ≤ p.age ∧ p.age ≤ cfg.age_distribution.max_age) := by
  have single : ∀ (pid : ℕ) (draws : PatientSim.PatientDraws),
      0 ≤ draws.age_beta → draws.age_beta ≤ 1 →
      cfg.age_distribution.min_age ≤ (PatientSim.generate_patient pid draws cfg).age ∧
        (PatientSim.generate_patient pid draws cfg).age ≤ cfg.age_distribution.max_age := by
    intro pid draws h0 h1
    show cfg.age_distribution.min_age ≤ cfg.age_distribution.sample draws.age_beta ∧
      cfg.age_distribution.sample draws.age_beta ≤ cfg.age_distribution.max_age
    exact PatientSim.sample_age_mem cfg.age_distribution hmm draws.age_beta h0 h1
  refine ⟨single, ?_⟩
  intro total dseq hdraws p hp
  simp only [PatientSim.generate_population, List.mem_map, List.mem_range] at hp
  obtain ⟨i, _, rfl⟩ := hp
  exact single i (dseq i) (hdraws i).1 (hdraws i).2

/-- A concrete draw record for the C4 witness. -/
def witnessDraws : PatientSim.PatientDraws :=
  { age_beta := 1/2, sex_uniform := 0, weight_normal := 0, metab_lognormal := 1,
    sens_lognormal := 1, pain_beta := 1/2, med_uniforms := fun _ => 1,
    comorb_uniforms := fun _ => 1 }

/-- Concrete witness for C4: the default configuration (α = 2, β = 3,
bounds 18–85) and a beta draw of 1/2 give an age in [18, 85]. -/
theorem patient_age_in_configured_range_witness :
    (18 : ℤ) ≤ (PatientSim.generate_patient 0 witnessDraws {}).age ∧
      (PatientSim.generate_patient 0 witnessDraws {}).age ≤ (85 : ℤ) :=
  (patient_age_in_configured_range {} (by norm_num) (by norm_num)
      (by norm_num)).1 0 witnessDraws (by norm_num [witnessDraws])
    (by norm_num [witnessDraws])

/-- C2: over any starting checkpoint store, re-running `map` with the
identical `(stage_name, batch_size, items)` triple and resume enabled
(i) invokes the worker on no item, returns exactly the first run's result
list, and leaves the store unchanged; (ii) any resumed run recomputes
exactly the batches whose checkpoint is missing in the store it started
from (`calledSpec`), in input order; and (iii) from a store with no
checkpoints for the stage, the run returns `items.map f` (batches
processed in strict input order) and writes checkpoint `i` with exactly
the i-th batch's computed results. Dump/load are the identity, as they
are for JSON-representable results. -/
theorem runner_map_resume_idempotent {α β : Type} (f : α → β) (items : List α)
    (stage : String) (size : ℤ) (store : DistRunner.Store β) :
    ((DistRunner.runnerMap true f items stage size
        ((DistRunner.runnerMap true f items stage size store).2.1)).2.2 = [] ∧
      (DistRunner.runnerMap true f items stage size
        ((DistRunner.runnerMap true f items stage size store).2.1)).1 =
        (DistRunner.runnerMap true f items stage size store).1 ∧
      (DistRunner.runnerMap true f items stage size
        ((DistRunner.runnerMap true f items stage size store).2.1)).2.1 =
        (DistRunner.runnerMap true f items stage size store).2.1) ∧
    (DistRunner.runnerMap true f items stage size store).2.2 =
      DistRunner.calledSpec stage store (DistRunner.chunk items size) 0 ∧
    ((∀ i, store (stage, i) = none) →
      (DistRunner.runnerMap true f items stage size store).1 = items.map f ∧
      ∀ i, (DistRunner.runnerMap true f items stage size store).2.1 (stage, i) =
        ((DistRunner.chunk items size)[i]?).map (List.map f)) := by
  have hre := DistRunner.mapGo_rerun f stage (DistRunner.chunk items size) 0 store
  refine ⟨⟨hre.2.2, hre.1, hre.2.1⟩,
    DistRunner.mapGo_called f stage (DistRunner.chunk items size) 0 store, ?_⟩
  intro hfresh
  have h := DistRunner.mapGo_fresh f stage (DistRunner.chunk items size) 0 store
    (fun j _ => hfresh j)
  refine ⟨?_, fun i => ?_⟩
  · rw [show (DistRunner.runnerMap true f items stage size store).1 =
      (DistRunner.mapGo true f stage (DistRunner.chunk items size) 0 store).1 from rfl,
      h.1, DistRunner.chunk_flatten]
  · rw [show (DistRunner.runnerMap true f items stage size store).2.1 =
      (DistRunner.mapGo true f stage (DistRunner.chunk items size) 0 store).2.1 from rfl,
      h.2 i, if_pos (Nat.zero_le i), Nat.sub_zero]

/-- Concrete witness for C2: squaring six numbers in batches of two from
an empty store; the second run restores everything, calls the worker on
nothing, and both runs return the squares in input order. -/
theorem runner_map_resume_idempotent_witness :
    (DistRunner.runnerMap true (fun x : ℕ => x * x) [0, 1, 2, 3, 4, 5] "square" 2
        ((DistRunner.runnerMap true (fun x : ℕ => x * x) [0, 1, 2, 3, 4, 5] "square" 2
          (fun _ => none)).2.1)).2.2 = [] ∧
      (DistRunner.runnerMap true (fun x : ℕ => x * x) [0, 1, 2, 3, 4, 5] "square" 2
        ((DistRunner.runnerMap true (fun x : ℕ => x * x) [0, 1, 2, 3, 4, 5] "square" 2
          (fun _ => none)).2.1)).1 =
        (DistRunner.runnerMap true (fun x : ℕ => x * x) [0, 1, 2, 3, 4, 5] "square" 2
          (fun _ => none)).1 ∧
      (DistRunner.runnerMap true (fun x : ℕ => x * x) [0, 1, 2, 3, 4, 5] "square" 2
        (fun _ => none)).1 = [0, 1, 4, 9, 16, 25] := by
  have h := runner_map_resume_idempotent (fun x : ℕ => x * x) [0, 1, 2, 3, 4, 5]
    "square" 2 (fun _ => none)
  exact ⟨h.1.1, h.1.2.1, ((h.2.2 (fun i => rfl)).1).trans rfl⟩

namespace ExperimentTracking

/-- The run-directory state after constructing a tracker on a fresh
directory and logging one metric record. -/
def freshLoggedRun (hash : List ℕ → String) (signer : String)
    (m a pm pa : List ℕ) : RunFiles :=
  log_metrics hash signer (trackerInit hash signer m a) pm pa

/-- A stand-in digest for the witness: an injective rendering of the byte
list. -/
def listHash (l : List ℕ) : String :=
  l.foldl (fun s n => s ++ "," ++ Nat.repr n) ""

end ExperimentTracking

/-- C1: `verify_signature` succeeds exactly when the stored digest equals
the digest of the concatenated raw bytes of metadata.json, config.json,
metrics.jsonl and audit.jsonl in that fixed order with missing files
skipped (first conjunct, for every run state with a parseable signature
file and every hash function); a freshly constructed tracker that logs a
metric verifies successfully (second conjunct); and any byte-level
modification of metadata.json that changes the digest — as SHA-384
collision resistance guarantees for any actual modification — makes
verification fail (third conjunct). -/
theorem verify_signature_iff_sha384 (hash : List ℕ → String) (signer : String)
    (m a pm pa m' : List ℕ)
    (hdiff : hash (ExperimentTracking.concatFiles
        (ExperimentTracking.tamperMetadata
          (ExperimentTracking.freshLoggedRun hash signer m a pm pa) m')) ≠
      hash (ExperimentTracking.concatFiles
        (ExperimentTracking.freshLoggedRun hash signer m a pm pa))) :
    (∀ (fs : ExperimentTracking.RunFiles) (sig : ExperimentTracking.SignatureFile),
        fs.signature = some sig →
        (((ExperimentTracking.verify_signature hash fs).1 = true) ↔
          sig.digest = ExperimentTracking.compute_digest hash fs)) ∧
    (ExperimentTracking.verify_signature hash
        (ExperimentTracking.freshLoggedRun hash signer m a pm pa)).1 = true ∧
    (ExperimentTracking.verify_signature hash
        (ExperimentTracking.tamperMetadata
          (ExperimentTracking.freshLoggedRun hash signer m a pm pa) m')).1 = false := by
  refine ⟨?_, ?_, ?_⟩
  · intro fs sig h
    simp only [ExperimentTracking.verify_signature, h]
    by_cases hd : sig.digest = ExperimentTracking.compute_digest hash fs
    · simp [hd]
    · simp [hd]
  · simp only [ExperimentTracking.freshLoggedRun, ExperimentTracking.log_metrics,
      ExperimentTracking.trackerInit, ExperimentTracking.refresh_signature,
      ExperimentTracking.append_audit_event, ExperimentTracking.verify_signature,
      ExperimentTracking.compute_digest, ExperimentTracking.concatFiles]
    simp
  · simp only [ExperimentTracking.freshLoggedRun, ExperimentTracking.log_metrics,
      ExperimentTracking.trackerInit, ExperimentTracking.refresh_signature,
      ExperimentTracking.append_audit_event, ExperimentTracking.tamperMetadata,
      ExperimentTracking.verify_signature, ExperimentTracking.compute_digest,
      ExperimentTracking.concatFiles] at hdiff ⊢
    rw [if_neg (Ne.symm hdiff)]

/-- Concrete witness for C1: a one-byte metadata file, audit and metric
lines, verified after logging; flipping the metadata byte to 7 changes
the digest and verification fails. -/
theorem verify_signature_iff_sha384_witness :
    (ExperimentTracking.verify_signature ExperimentTracking.listHash
        (ExperimentTracking.freshLoggedRun ExperimentTracking.listHash "user"
          [0] [1] [2] [3])).1 = true ∧
      (ExperimentTracking.verify_signature ExperimentTracking.listHash
        (ExperimentTracking.tamperMetadata
          (ExperimentTracking.freshLoggedRun ExperimentTracking.listHash "user"
            [0] [1] [2] [3]) [7])).1 = false := by
  have h := verify_signature_iff_sha384 ExperimentTracking.listHash "user"
    [0] [1] [2] [3] [7] (by decide)
  exact ⟨h.2.1, h.2.2⟩

/-- C9: the metadata merge performed by `upsert_metadata(extra)` is
frame-preserving on a parseable `metadata.json`: a key present in the
current metadata and absent from `extra` keeps its previous value (the
freshly recomputed defaults never override it), every key of `extra`
takes its new value, and no existing key is removed. -/
theorem upsert_metadata_frame {V : Type}
    (defaultMeta current extra : String → Option V) :
    (∀ k v, current k = some v → extra k = none →
        ExperimentTracking.upsert_metadata_merge defaultMeta current extra k = some v) ∧
    (∀ k v, extra k = some v →
        ExperimentTracking.upsert_metadata_merge defaultMeta current extra k = some v) ∧
    (∀ k, (current k).isSome →
        (ExperimentTracking.upsert_metadata_merge defaultMeta current extra k).isSome) := by
  refine ⟨?_, ?_, ?_⟩
  · intro k v hc he
    simp [ExperimentTracking.upsert_metadata_merge, ExperimentTracking.dictUpdate, hc, he]
  · intro k v he
    simp [ExperimentTracking.upsert_metadata_merge, ExperimentTracking.dictUpdate, he]
  · intro k hc
    obtain ⟨v, hv⟩ := Option.isSome_iff_exists.mp hc
    simp only [ExperimentTracking.upsert_metadata_merge, ExperimentTracking.dictUpdate, hv]
    cases extra k <;> simp

/-- Concrete witness for C9: defaults recompute `run_id := 0`, the file
currently holds `run_id := 1`, and `extra` adds `note := 2`; the merge
keeps `run_id = 1` and sets `note = 2`. -/
theorem upsert_metadata_frame_witness :
    ExperimentTracking.upsert_metadata_merge
        (fun k => if k = "run_id" then some 0 else none)
        (fun k => if k = "run_id" then some 1 else none)
        (fun k => if k = "note" then some 2 else none) "run_id" = some 1 ∧
      ExperimentTracking.upsert_metadata_merge
        (fun k => if k = "run_id" then some 0 else none)
        (fun k => if k = "run_id" then some 1 else none)
        (fun k => if k = "note" then some 2 else none) "note" = some 2 :=
  ⟨(upsert_metadata_frame _ _ _).1 "run_id" 1 (by decide) (by decide),
   (upsert_metadata_frame _ _ _).2.1 "note" 2 (by decide)⟩

namespace ApiAuth

/-- The demo user store restricted to the fields the refresh flow reads. -/
def demoUsers : List (String × User) :=
  [("admin", { username := "admin", role := "admin", disabled := false })]

/-- The refresh token `login` issues to the admin user. -/
def adminRefreshToken : JwtToken :=
  .valid { sub := some "admin", role := some "admin", typ := "refresh" }

end ApiAuth

/-- C5 (code evaluation at the failing input): the refresh endpoint checks
the `type` discriminator — an access token is rejected (third conjunct) —
but performs no revocation check: after logout deletes the stored refresh
token from Redis (first conjunct), presenting that same revoked token to
`POST /api/auth/refresh` still yields a fresh token pair (second
conjunct), contradicting the claim that a revoked token is rejected. -/
theorem refresh_route_accepts_revoked_token :
    (ApiAuth.logout_route
        (ApiAuth.create_refresh_token (fun _ => none) "admin" "admin").2
        ApiAuth.adminRefreshToken) "refresh_token:admin" = none ∧
      (ApiAuth.refresh_route ApiAuth.demoUsers
        (ApiAuth.logout_route
          (ApiAuth.create_refresh_token (fun _ => none) "admin" "admin").2
          ApiAuth.adminRefreshToken)
        ApiAuth.adminRefreshToken).isOk = true ∧
      (ApiAuth.refresh_route ApiAuth.demoUsers (fun _ => none)
        (ApiAuth.JwtToken.valid
          { sub := some "admin", role := some "admin", typ := "access" })).isOk = false := by
  exact ⟨by decide, rfl, rfl⟩

namespace Docking

lemma flatMap_const_length {γ δ : Type} (l : List γ) (g : γ → List δ) (k : ℕ)
    (h : ∀ x ∈ l, (g x).length = k) : (l.flatMap g).length = l.length * k := by
  induction l with
  | nil => simp
  | cons x xs ih =>
    simp only [List.flatMap_cons, List.length_append, List.length_cons]
    rw [h x (List.mem_cons_self _ _), ih (fun y hy => h y (List.mem_cons_of_mem _ hy))]
    ring

lemma mocked_run_length (stream : ℕ → ℚ) (job : DockingJobSpec) (device : String) :
    (mocked_run stream job device).length =
      min job.ligands.length job.max_ligands * job.poses_per_ligand := by
  unfold mocked_run
  rw [flatMap_const_length _ _ job.poses_per_ligand (fun x _ => by simp)]
  simp [List.enum_length, List.length_take, Nat.min_comm]

/-- The result record `run_docking_job` produces for a validated job that
requested the mocked backend. -/
def mockedJobResult (streams : String → ℕ → ℚ) (run_dir : String)
    (job : DockingJobSpec) : DockingResult :=
  { job_id := job.job_id
    status := "success"
    backend := "mocked"
    device := "CPU"
    poses := mocked_run (streams "mocked") job "CPU"
    artifacts :=
      [("scores_csv", run_dir ++ "/" ++ job.job_id ++ "/docking" ++ "/scores.csv"),
       ("telemetry", run_dir ++ "/" ++ job.job_id ++ "/docking" ++ "/telemetry.json"),
       ("inputs_manifest",
         run_dir ++ "/" ++ job.job_id ++ "/docking" ++ "/inputs/manifest.json")] }

end Docking

/-- C7: validation fails exactly when the ligand list is empty, the
ligand count exceeds `max_ligands`, or the receptor identifier is empty
(first conjunct); a failed validation aborts `run_docking_job` with that
error (second conjunct); and every job that passes validation and selects
the mocked backend returns status `success` with exactly
`min(len(ligands), max_ligands) * poses_per_ligand` poses and the scores
and telemetry artifacts recorded (third conjunct). -/
theorem docking_job_validation_and_pose_count (job : Docking.DockingJobSpec)
    (streams : String → ℕ → ℚ) (run_dir : String) :
    (Docking.validate_inputs job = Docking.Validation.ok ↔
      (job.ligands ≠ [] ∧ job.ligands.length ≤ job.max_ligands ∧ job.receptor ≠ "")) ∧
    (∀ msg, Docking.validate_inputs job = Docking.Validation.error msg →
      Docking.run_docking_job streams run_dir job = .error msg) ∧
    (job.backend = some "mocked" → Docking.validate_inputs job = Docking.Validation.ok →
      ∃ r, Docking.run_docking_job streams run_dir job = .ok r ∧
        r.status = "success" ∧ r.backend = "mocked" ∧
        r.poses.length = min job.ligands.length job.max_ligands * job.poses_per_ligand ∧
        (r.artifacts.lookup "scores_csv").isSome ∧
        (r.artifacts.lookup "telemetry").isSome) := by
  refine ⟨?_, ?_, ?_⟩
  · unfold Docking.validate_inputs
    split_ifs with h1 h2 h3
    · simp [h1]
    · constructor
      · intro h; exact absurd h (by simp)
      · intro h; omega
    · simp [h3]
    · simp only [true_iff]
      exact ⟨h1, by omega, h3⟩
  · intro msg hmsg
    unfold Docking.run_docking_job
    rw [hmsg]
  · intro hb hok
    have hsel : Docking.select_backend job Docking.detect_hardware_profile =
        ("mocked", "CPU") := by
      unfold Docking.select_backend Docking.optStrTruthy
      rw [hb]
      simp
    refine ⟨Docking.mockedJobResult streams run_dir job, ?_, rfl, rfl,
      Docking.mocked_run_length _ _ _,
      by simp [Docking.mockedJobResult, List.lookup],
      by simp [Docking.mockedJobResult, List.lookup]⟩
    simp only [Docking.run_docking_job, hok, hsel, Docking.mockedJobResult]
    rw [if_pos trivial]

namespace Docking

/-- A concrete two-ligand mocked-backend job for the C7 witness. -/
def demoDockJob : DockingJobSpec :=
  { receptor := "MOR", ligands := ["lig1", "lig2"], backend := some "mocked",
    poses_per_ligand := 2, job_id := "job1" }

end Docking

/-- Concrete witness for C7: 2 ligands with `poses_per_ligand = 2` on the
mocked backend succeed with exactly 4 poses. -/
theorem docking_job_validation_and_pose_count_witness :
    (Docking.run_docking_job (fun _ _ => 0) "runs" Docking.demoDockJob).toOption.map
        (fun r => (r.status, r.poses.length)) = some ("success", 4) := by
  obtain ⟨r, hr, hs, _, hlen, _, _⟩ :=
    (docking_job_validation_and_pose_count Docking.demoDockJob (fun _ _ => 0)
      "runs").2.2 rfl (by decide)
  rw [hr]
  show some (r.status, r.poses.length) = some ("success", 4)
  rw [hs, hlen]
  rfl

/-- C10: both reference docking backends are deterministic functions of
the seeded generator's output stream (fixed seed 42 for `python_ref`,
1234 for `mocked`), the ligand list, `max_ligands`, `poses_per_ligand`
and the device string: any two jobs agreeing on those fields — in
particular the same job presented twice — produce identical pose lists,
independent of receptor, grid, job id, run directory or timing. -/
theorem docking_backends_deterministic (stream : ℕ → ℚ)
    (j1 j2 : Docking.DockingJobSpec) (device : String)
    (hl : j1.ligands = j2.ligands) (hm : j1.max_ligands = j2.max_ligands)
    (hp : j1.poses_per_ligand = j2.poses_per_ligand) :
    Docking.mocked_run stream j1 device = Docking.mocked_run stream j2 device ∧
      Docking.python_ref_run stream j1 device = Docking.python_ref_run stream j2 device := by
  unfold Docking.mocked_run Docking.python_ref_run
  rw [hl, hm, hp]
  exact ⟨rfl, rfl⟩

namespace Docking

/-- C10 witness job (first invocation). -/
def dockJobA : DockingJobSpec :=
  { receptor := "MOR-A", ligands := ["x", "y"], poses_per_ligand := 3, job_id := "a" }

/-- C10 witness job (second invocation: different receptor and job id,
same ligands, limits and pose count). -/
def dockJobB : DockingJobSpec :=
  { receptor := "KOR-B", ligands := ["x", "y"], poses_per_ligand := 3, job_id := "b" }

end Docking

/-- Concrete witness for C10: the two jobs differ only in fields the
backends never read, so both backends return identical pose lists. -/
theorem docking_backends_deterministic_witness :
    Docking.mocked_run (fun n => (n : ℚ)) Docking.dockJobA "CPU" =
        Docking.mocked_run (fun n => (n : ℚ)) Docking.dockJobB "CPU" ∧
      Docking.python_ref_run (fun n => (n : ℚ)) Docking.dockJobA "CPU" =
        Docking.python_ref_run (fun n => (n : ℚ)) Docking.dockJobB "CPU" :=
  docking_backends_deterministic (fun n => (n : ℚ)) Docking.dockJobA Docking.dockJobB
    "CPU" rfl rfl rfl
